import Mathlib

/-!
Verification development for the FoxESS Cloud integration core
(`custom_components/foxess_cloud`): the request signer, the response
error classification of the API client, the client-side argument
validation, the rolling 24h API call tracker, and the scheduler
staging/reconciliation coordinator.

Conventions of the embedding:
* Python `dict`s with integer keys are association lists `List (Int × Nat)`.
* Time is modelled in whole seconds as `Int`; the Python float `//` floor
  division corresponds to `Int.fdiv`.
* The `float` field `fdPwr` carries only rational values in this code
  base (copies and literals, no arithmetic), so it is modelled as `Rat`.
* Python exceptions become `Except` results; a raised exception leaves
  previously-held coordinator state untouched, which the state-level
  wrappers make explicit.
* `hashlib.md5(...).hexdigest()` is an external library call and enters
  the model as an abstract parameter `md5hex : String → String`.
-/

namespace FoxESS

/-! ## Signature generation (`FoxESSCloudClient._generate_signature`) -/

/-- The separator the client puts between the signed components:
the Python source writes `f"{path}\\r\\n{api_key}\\r\\n{timestamp}"`, i.e.
the FOUR characters backslash, `r`, backslash, `n` — not CR/LF bytes. -/
def escRN : String := "\\r\\n"

/-- Embeds `FoxESSCloudClient._generate_signature`, with `hashlib` md5-hexdigest
abstracted as the parameter `md5hex`. The body mirrors
`text = f"{path}\\r\\n{self.api_key}\\r\\n{timestamp}"; md5(text).hexdigest()`. -/
def generateSignature (md5hex : String → String) (apiKey path timestamp : String) : String :=
  md5hex (path ++ escRN ++ apiKey ++ escRN ++ timestamp)

/-! ## Error taxonomy (`api_client/errors.py`) and response handling -/

/-- The Python exception classes: `FoxESSCloudAuthError` and
`FoxESSCloudConnectionError` both subclass `FoxESSCloudApiError`;
`ErrClass` records the most-derived class actually raised. -/
inductive ErrClass where
  | auth
  | connection
  | api
deriving DecidableEq, Repr

/-- Every distinct raise site of the client, with the data it carries. -/
inductive FoxError where
  /-- Python `FoxESSCloudAuthError("Authentication failed")` on HTTP 401. -/
  | authHttp
  /-- Python `FoxESSCloudAuthError(...)` on `errno in (401, 403)`. -/
  | authErrno (errno : Int) (msg : Option String)
  /-- Python `FoxESSCloudConnectionError("HTTP error during FoxESS Cloud request")`. -/
  | connectionHttp
  /-- Python `FoxESSCloudConnectionError("Failed to communicate with FoxESS Cloud")`. -/
  | connectionTransport
  /-- Python `FoxESSCloudApiError("Unexpected response format from FoxESS Cloud")`. -/
  | apiUnexpectedFormat
  /-- Python `FoxESSCloudApiError("Missing errno in FoxESS Cloud response")`. -/
  | apiMissingErrno
  /-- Python `FoxESSCloudApiError(f"FoxESS Cloud returned error code {errno}: {message}")`. -/
  | apiErrnoError (errno : Int) (msg : Option String)
  /-- Python `FoxESSCloudApiError(msg)` raised by client-side argument validation. -/
  | apiValidation (msg : String)
deriving DecidableEq, Repr

/-- Most-derived exception class of each raise site. -/
def FoxError.classOf : FoxError → ErrClass
  | .authHttp => .auth
  | .authErrno _ _ => .auth
  | .connectionHttp => .connection
  | .connectionTransport => .connection
  | .apiUnexpectedFormat => .api
  | .apiMissingErrno => .api
  | .apiErrnoError _ _ => .api
  | .apiValidation _ => .api

/-- Parsed JSON body of a response, as far as the client inspects it:
either not a JSON object at all, or an object with the optional fields
`errno`, `msg`, `message` and `error` that the client reads. -/
inductive JsonBody where
  | nonObject
  | object (errno : Option Int) (msg : Option String)
      (message : Option String) (error : Option String)
deriving DecidableEq, Repr

/-- Outcome of the HTTP exchange inside the `try` block:
`raise_for_status` raising `ClientResponseError status`, any other
transport/timeout/parse exception, or a parsed JSON body. -/
inductive HttpOutcome where
  | clientResponseError (status : Nat)
  | otherTransportError
  | ok (body : JsonBody)
deriving DecidableEq, Repr

/-- Semantics of Python `a or b` on optional strings: `None` and `""` are falsy. -/
def pyOrStr (a b : Option String) : Option String :=
  match a with
  | some s => if s = "" then b else some s
  | none => b

/-- Computes `data.get("msg") or data.get("message") or data.get("error")`. -/
def responseMessage (msg message error : Option String) : Option String :=
  pyOrStr msg (pyOrStr message error)

/-- The shared response classification of `_async_post_json` and
`_async_get_json` (their bodies at client.py lines 252-288 and 313-348 are
identical): HTTP/transport error handling, the `isinstance(data, dict)`
check, and the `errno` dispatch. -/
def handleResponse (outcome : HttpOutcome) : Except FoxError JsonBody :=
  match outcome with
  | .clientResponseError status =>
      if status = 401 then .error .authHttp else .error .connectionHttp
  | .otherTransportError => .error .connectionTransport
  | .ok body =>
      match body with
      | .nonObject => .error .apiUnexpectedFormat
      | .object errno msg message error =>
          match errno with
          | none => .error .apiMissingErrno
          | some e =>
              if e ≠ 0 then
                if e = 401 ∨ e = 403 then
                  .error (.authErrno e (responseMessage msg message error))
                else
                  .error (.apiErrnoError e (responseMessage msg message error))
              else
                .ok body

/-- Exception class of an `Except FoxError` result, if it is an error. -/
def errClassOf {α : Type} : Except FoxError α → Option ErrClass
  | .error e => some e.classOf
  | .ok _ => none

/-! ## Client-side argument validation and effect ordering -/

/-- Observable side effects of an authenticated call, in the order
`_async_post_json` / `_async_get_json` perform them:
`self._throttle()`, `self._record_api_call()`, then the HTTP request. -/
inductive Effect where
  | throttle
  | recordApiCall
  | httpRequest (path : String)
deriving DecidableEq, Repr

/-- Models `_async_post_json` / `_async_get_json` as an effect trace plus the
classified result for a given HTTP outcome. -/
def runRequest (path : String) (outcome : HttpOutcome) :
    List Effect × Except FoxError JsonBody :=
  ([.throttle, .recordApiCall, .httpRequest path], handleResponse outcome)

/-- The module-level `_SETTING_KEYS` table of client.py. -/
def SETTING_KEYS : List (String × String) :=
  [("exportlimit", "ExportLimit"),
   ("minsoc", "MinSoc"),
   ("minsocongrid", "MinSocOnGrid"),
   ("maxsoc", "MaxSoc"),
   ("gridcode", "GridCode"),
   ("workmode", "WorkMode"),
   ("activepowerlimit", "ActivePowerLimit"),
   ("exportlimitpower", "ExportLimitPower"),
   ("epsoutput", "EpsOutPut"),
   ("ecomode", "ECOMode")]

/-- Computes `key.replace("_", "").replace("-", "").lower()`. -/
def normalizeKey (key : String) : String :=
  ⟨(key.data.filter fun c => ¬ (c = '_' ∨ c = '-')).map Char.toLower⟩

/-- Embeds `FoxESSCloudClient._canonical_setting_key`: normalize and look up in
the fixed table; unknown keys raise `FoxESSCloudApiError`. -/
def canonicalSettingKey (key : String) : Except FoxError String :=
  match (SETTING_KEYS.find? fun p => p.1 = normalizeKey key) with
  | some p => .ok p.2
  | none => .error (.apiValidation ("Unknown setting key " ++ key))

/-- Embeds `async_get_setting`: resolve the canonical key, then perform the
authenticated POST; a key-validation failure happens before any effect. -/
def runGetSetting (key : String) (outcome : HttpOutcome) :
    List Effect × Except FoxError JsonBody :=
  match canonicalSettingKey key with
  | .error e => ([], .error e)
  | .ok _ => runRequest ("/op/v0/device/setting/get") outcome

/-- Validation phase of `async_get_production_report`: the `dimension`
check happens before `_async_post_json` is invoked. -/
def productionReportChecked (dimension : String) : Except FoxError Unit :=
  if ¬ (dimension = "year" ∨ dimension = "month" ∨ dimension = "day") then
    .error (.apiValidation ("dimension must be one of: year, month, day"))
  else
    .ok ()

/-- Models `async_get_production_report` as an effect trace plus result. -/
def runGetProductionReport (dimension : String) (outcome : HttpOutcome) :
    List Effect × Except FoxError JsonBody :=
  match productionReportChecked dimension with
  | .error e => ([], .error e)
  | .ok _ => runRequest ("/op/v0/device/report/query") outcome

/-- Validation phase of `async_get_real_time_data`, in source order:
empty `sns`, unknown `api_version`, then the v0 single-serial rule;
on success it returns the request path `f"/op/{api_version}/device/real/query"`. -/
def realTimeChecked (sns : List String) (apiVersion : String) :
    Except FoxError String :=
  if sns = [] then
    .error (.apiValidation ("sns must contain at least one serial number"))
  else if ¬ (apiVersion = "v0" ∨ apiVersion = "v1") then
    .error (.apiValidation ("api_version must be v0 or v1"))
  else if apiVersion = "v0" ∧ sns.length ≠ 1 then
    .error (.apiValidation ("v0 real-time query accepts exactly one sn"))
  else
    .ok ("/op/" ++ apiVersion ++ "/device/real/query")

/-- Models `async_get_real_time_data` as an effect trace plus result. -/
def runGetRealTimeData (sns : List String) (apiVersion : String)
    (outcome : HttpOutcome) : List Effect × Except FoxError JsonBody :=
  match realTimeChecked sns apiVersion with
  | .error e => ([], .error e)
  | .ok path => runRequest path outcome

/-! ## Scheduler data model (`api_client/models.py`) -/

/-- Model `SchedulerGroup`: one scheduler time segment (v1 schema). The pydantic
model declares plain `int`/`str`/`float` fields with no range validators. -/
structure SchedulerGroup where
  enable : Int
  start_hour : Int
  start_minute : Int
  end_hour : Int
  end_minute : Int
  work_mode : String
  min_soc_on_grid : Int
  fd_soc : Int
  fd_pwr : Rat
  max_soc : Int
deriving DecidableEq, Repr

/-- Model `SchedulerInfo`: master enable flag plus the group list. -/
structure SchedulerInfo where
  enable : Int
  groups : List SchedulerGroup
deriving DecidableEq, Repr

/-! ## Scheduler coordinator (`FoxESSCloudSchedulerCoordinator`) -/

/-- Embeds `FoxESSCloudSchedulerCoordinator._default_group()`. -/
def defaultGroup : SchedulerGroup :=
  { enable := 0
    start_hour := 0
    start_minute := 0
    end_hour := 0
    end_minute := 0
    work_mode := "SelfUse"
    min_soc_on_grid := 20
    fd_soc := 20
    fd_pwr := 10000
    max_soc := 100 }

/-- The mutable scheduler state of the coordinator: `self.staging`,
`self._dirty`, `self._last_scheduler`. -/
structure CoordState where
  staging : SchedulerGroup
  dirty : Bool
  last_scheduler : Option SchedulerInfo
deriving DecidableEq, Repr

/-- Coordinator state right after `__init__`. -/
def initState : CoordState :=
  { staging := defaultGroup, dirty := false, last_scheduler := none }

/-- Embeds `_staging_to_scheduler_info`: presentation view exposed to consumers. -/
def stagingToSchedulerInfo (s : CoordState) : SchedulerInfo :=
  { enable := match s.last_scheduler with
              | some info => info.enable
              | none => 1
    groups := [s.staging] }

/-- State change of `_async_update_data` when `async_get_scheduler`
succeeds with `data`: overwrite staging from the first server group
(or the default group) unless dirty, and always store the raw server
state as `_last_scheduler`. A failed fetch raises and changes nothing. -/
def applyFetchSuccess (s : CoordState) (data : SchedulerInfo) : CoordState :=
  let staging :=
    if s.dirty then s.staging
    else
      match data.groups with
      | [] => defaultGroup
      | g :: _ => g
  { staging := staging, dirty := s.dirty, last_scheduler := some data }

/-- The keyword arguments of `update_group`, each defaulting to `None`. -/
structure UpdateArgs where
  enable : Option Int
  start_hour : Option Int
  start_minute : Option Int
  end_hour : Option Int
  end_minute : Option Int
  work_mode : Option String
  min_soc_on_grid : Option Int
  fd_soc : Option Int
  fd_pwr : Option Rat
  max_soc : Option Int
deriving DecidableEq, Repr

/-- An `UpdateArgs` with every field `None`. -/
def noArgs : UpdateArgs :=
  { enable := none, start_hour := none, start_minute := none,
    end_hour := none, end_minute := none, work_mode := none,
    min_soc_on_grid := none, fd_soc := none, fd_pwr := none,
    max_soc := none }

/-- The body of `update_group` on the staged group: work on a copy,
apply `enable`, run the two xor checks (`(x is None) ^ (y is None)`),
then apply the remaining provided fields. A raised `ValueError` discards
the copy. -/
def updateGroup (a : UpdateArgs) (g : SchedulerGroup) :
    Except String SchedulerGroup :=
  let u := g
  let u := match a.enable with
           | some e => { u with enable := e }
           | none => u
  if a.start_hour.isNone.xor a.start_minute.isNone then
    .error ("start_hour and start_minute must be provided together")
  else if a.end_hour.isNone.xor a.end_minute.isNone then
    .error ("end_hour and end_minute must be provided together")
  else
    let u := match a.start_hour, a.start_minute with
             | some h, some m => { u with start_hour := h, start_minute := m }
             | _, _ => u
    let u := match a.end_hour, a.end_minute with
             | some h, some m => { u with end_hour := h, end_minute := m }
             | _, _ => u
    let u := match a.work_mode with
             | some w => { u with work_mode := w }
             | none => u
    let u := match a.min_soc_on_grid with
             | some v => { u with min_soc_on_grid := v }
             | none => u
    let u := match a.fd_soc with
             | some v => { u with fd_soc := v }
             | none => u
    let u := match a.fd_pwr with
             | some v => { u with fd_pwr := v }
             | none => u
    let u := match a.max_soc with
             | some v => { u with max_soc := v }
             | none => u
    .ok u

/-- Embeds `update_group` at the coordinator level: on success replace staging
and set `_dirty = True`; a `ValueError` propagates with the state
untouched. -/
def coordUpdateGroup (a : UpdateArgs) (s : CoordState) :
    Except String CoordState :=
  match updateGroup a s.staging with
  | .error e => .error e
  | .ok u => .ok { s with staging := u, dirty := true }

/-- Embeds `async_submit_group` given the outcome of `async_set_scheduler`:
on success `_dirty = False` is executed, on error the exception
propagates before that line, leaving the state as it was. (The
subsequent `async_request_refresh` is a separate fetch step.) -/
def coordSubmit (s : CoordState) (serverOutcome : Except FoxError Unit) :
    CoordState × Except FoxError Unit :=
  match serverOutcome with
  | .error e => (s, .error e)
  | .ok _ => ({ s with dirty := false }, .ok ())

/-- Embeds `restore_staged_group`: copy the first group of the last fetched
scheduler state back into staging (or the default group when none was
fetched or its list is empty) and clear the dirty flag. -/
def restoreStagedGroup (s : CoordState) : CoordState :=
  let staging :=
    match s.last_scheduler with
    | some info =>
        match info.groups with
        | g :: _ => g
        | [] => defaultGroup
    | none => defaultGroup
  { s with staging := staging, dirty := false }

/-- One observable transition of the scheduler coordinator. Failed
fetches and failed submits leave the state unchanged and are covered by
reflexivity of the reachability closure. -/
inductive Step : CoordState → CoordState → Prop where
  | fetch (s : CoordState) (data : SchedulerInfo) :
      Step s (applyFetchSuccess s data)
  | update (s s' : CoordState) (a : UpdateArgs)
      (h : coordUpdateGroup a s = .ok s') : Step s s'
  | submit (s : CoordState) (r : Except FoxError Unit) :
      Step s (coordSubmit s r).1
  | restore (s : CoordState) : Step s (restoreStagedGroup s)

/-- States reachable from `__init__` by coordinator operations. -/
def Reachable (s : CoordState) : Prop :=
  Relation.ReflTransGen Step initState s

/-! ## Rolling 24h call tracker (`api_call_tracker.py`)

Timestamps are whole seconds (`Int`); `timedelta(hours=24)` is 86400
seconds and the hour bucket of `_bucket_for` is floor division by 3600.
The `_buckets` dict is an association list in insertion order. -/

/-- Embeds `ApiCallTracker._bucket_for`: `int(timestamp.timestamp() // 3600)`. -/
def bucketFor (t : Int) : Int := t.fdiv 3600

/-- Performs `self._buckets[bucket] = self._buckets.get(bucket, 0) + 1`. -/
def incBucket (l : List (Int × Nat)) (b : Int) : List (Int × Nat) :=
  match l with
  | [] => [(b, 1)]
  | (k, c) :: rest =>
      if k = b then (k, c + 1) :: rest else (k, c) :: incBucket rest b

/-- Embeds `_prune_locked`: delete every bucket strictly below the cutoff. -/
def pruneBuckets (l : List (Int × Nat)) (cutoff : Int) : List (Int × Nat) :=
  l.filter fun p => ¬ p.1 < cutoff

/-- The tracker state: the `_buckets` dict. -/
structure TrackerState where
  buckets : List (Int × Nat)
deriving DecidableEq, Repr

/-- The empty tracker built by `ApiCallTracker.__init__`. -/
def emptyTracker : TrackerState := { buckets := [] }

/-- Embeds `record_call(now)`: increment the bucket for `now`, then prune
buckets older than 24 hours. -/
def recordCall (s : TrackerState) (now : Int) : TrackerState :=
  { buckets := pruneBuckets (incBucket s.buckets (bucketFor now))
      (bucketFor (now - 86400)) }

/-- Embeds `count_last_24h(now)`: prune, then sum every bucket at or above the
24h-ago cutoff bucket. Returns the count and the pruned state. -/
def countLast24h (s : TrackerState) (now : Int) : Nat × TrackerState :=
  let cutoff := bucketFor (now - 86400)
  let pruned := pruneBuckets s.buckets cutoff
  (((pruned.filter fun p => cutoff ≤ p.1).map fun p => p.2).sum,
   { buckets := pruned })

/-- Record a sequence of calls at the given timestamps, in order. -/
def runRecords (ts : List Int) (s : TrackerState) : TrackerState :=
  ts.foldl recordCall s

/-- Returns `true` exactly when the computation raised. -/
def raisesError {ε α : Type} : Except ε α → Bool
  | .error _ => true
  | .ok _ => false

/-! ## Theorems -/

/-- C1: for every path, api_key and timestamp string, the client
signature is the MD5 hex digest of path, api_key and timestamp joined by
the FOUR characters backslash, `r`, backslash, `n` (the escape sequences
written out), which are not the carriage-return/newline bytes `"\r\n"`. -/
theorem c1_signature_escaped_separators (md5hex : String → String)
    (apiKey path timestamp : String) :
    generateSignature md5hex apiKey path timestamp
      = md5hex (path ++ ⟨['\\', 'r', '\\', 'n']⟩ ++ apiKey
          ++ ⟨['\\', 'r', '\\', 'n']⟩ ++ timestamp)
    ∧ escRN.data = ['\\', 'r', '\\', 'n']
    ∧ escRN ≠ "\r\n"
    ∧ '\r' ∉ escRN.data ∧ '\n' ∉ escRN.data := by
  have h : escRN = (⟨['\\', 'r', '\\', 'n']⟩ : String) := by decide
  refine ⟨?_, by decide, by decide, by decide, by decide⟩
  unfold generateSignature
  rw [h]

/-- C2: a successful scheduler fetch overwrites the staged group with the
first server group (default group when the server list is empty) when
the coordinator is not dirty, leaves it untouched when dirty, and in both
cases stores the raw server state as the last fetched scheduler state. -/
theorem c2_fetch_staging_and_last_fetched (s : CoordState)
    (data : SchedulerInfo) :
    (applyFetchSuccess s data).staging
      = (if s.dirty then s.staging else data.groups.headD defaultGroup)
    ∧ (applyFetchSuccess s data).last_scheduler = some data
    ∧ (applyFetchSuccess s data).dirty = s.dirty := by
  refine ⟨?_, rfl, rfl⟩
  cases hd : s.dirty <;> cases hg : data.groups <;>
    simp [applyFetchSuccess, hd, hg]

/-- C5: `update_group` raises a validation error exactly when one of the
pair start_hour/start_minute, or one of the pair end_hour/end_minute, is
provided without the other; in particular providing only `start_hour = 5`
fails, while providing `start_hour = 5, start_minute = 30` succeeds. -/
theorem c5_update_group_pair_validation :
    (∀ (a : UpdateArgs) (g : SchedulerGroup),
      raisesError (updateGroup a g) = true
        ↔ (a.start_hour.isSome.xor a.start_minute.isSome = true
            ∨ a.end_hour.isSome.xor a.end_minute.isSome = true))
    ∧ raisesError
        (updateGroup { noArgs with start_hour := some 5 } defaultGroup) = true
    ∧ raisesError
        (updateGroup { noArgs with
          start_hour := some 5,
          start_minute := some 30 } defaultGroup) = false := by
  refine ⟨?_, by decide, by decide⟩
  intro a g
  rcases a with ⟨en, sh, sm, eh, em, wm, msg, fds, fdp, msoc⟩
  cases sh <;> cases sm <;> cases eh <;> cases em <;>
    simp [updateGroup, raisesError]

/-- C6: `restore_staged_group` restores staging from the first group of
the last fetched scheduler state, or — when none was fetched or its group
list is empty — from the default group (disabled, 00:00-00:00, SelfUse,
min-SOC-on-grid 20, fd-SOC 20, fd-power 10000, max-SOC 100), and always
clears the dirty flag. -/
theorem c6_restore_staged_group (s : CoordState) :
    (restoreStagedGroup s).dirty = false
    ∧ (restoreStagedGroup s).staging
        = ((s.last_scheduler.elim [] SchedulerInfo.groups).headD
            { enable := 0, start_hour := 0, start_minute := 0,
              end_hour := 0, end_minute := 0, work_mode := "SelfUse",
              min_soc_on_grid := 20, fd_soc := 20, fd_pwr := 10000,
              max_soc := 100 })
    ∧ (restoreStagedGroup s).last_scheduler = s.last_scheduler := by
  refine ⟨rfl, ?_, rfl⟩
  rcases s with ⟨staging, dirty, last⟩
  cases last with
  | none => simp [restoreStagedGroup, defaultGroup]
  | some info =>
      cases hg : info.groups <;>
        simp [restoreStagedGroup, defaultGroup, hg]

/-- C10: when the server call of `async_submit_group` fails, the dirty
flag stays `true` and the staged group is unchanged; the dirty flag is
cleared exactly by a successful server call. -/
theorem c10_submit_failure_preserves_state (s : CoordState) (e : FoxError) :
    (s.dirty = true →
      (coordSubmit s (.error e)).1.dirty = true
      ∧ (coordSubmit s (.error e)).1.staging = s.staging)
    ∧ (coordSubmit s (.error e)).1 = s
    ∧ (coordSubmit s (.ok ())).1.dirty = false
    ∧ (∀ r : Except FoxError Unit,
        s.dirty = true → (coordSubmit s r).1.dirty = false → r = .ok ()) := by
  refine ⟨fun h => ⟨by simp [coordSubmit, h], rfl⟩, rfl, rfl, ?_⟩
  intro r hdirty hclear
  cases r with
  | ok u => cases u; rfl
  | error err => simp [coordSubmit, hdirty] at hclear

/-- A concrete dirty coordinator state, for the C10 witness. -/
def dirtyState : CoordState :=
  { staging := defaultGroup, dirty := true, last_scheduler := none }

/-- Witness for C10 at a concrete dirty state and concrete error. -/
theorem c10_witness :
    (coordSubmit dirtyState (.error .connectionTransport)).1.dirty = true :=
  ((c10_submit_failure_preserves_state dirtyState .connectionTransport).1 rfl).1

/-- C3: response classification — HTTP 401 and errno 401/403 raise the
authentication error; any other non-zero errno raises the generic API
error carrying the errno and the response message; a missing errno or a
non-object body raises the generic API error; transport failures and
other HTTP errors raise the connection error; errno 0 returns the body. -/
theorem c3_response_error_classification :
    (handleResponse (.clientResponseError 401) = .error .authHttp
      ∧ errClassOf (handleResponse (.clientResponseError 401)) = some .auth)
    ∧ (∀ status : Nat, status ≠ 401 →
        handleResponse (.clientResponseError status) = .error .connectionHttp
        ∧ errClassOf (handleResponse (.clientResponseError status))
            = some .connection)
    ∧ errClassOf (handleResponse .otherTransportError) = some .connection
    ∧ (∀ (e : Int) (m m2 m3 : Option String), e = 401 ∨ e = 403 →
        handleResponse (.ok (.object (some e) m m2 m3))
            = .error (.authErrno e (responseMessage m m2 m3))
        ∧ errClassOf (handleResponse (.ok (.object (some e) m m2 m3)))
            = some .auth)
    ∧ (∀ (e : Int) (m m2 m3 : Option String), e ≠ 0 → e ≠ 401 → e ≠ 403 →
        handleResponse (.ok (.object (some e) m m2 m3))
            = .error (.apiErrnoError e (responseMessage m m2 m3))
        ∧ errClassOf (handleResponse (.ok (.object (some e) m m2 m3)))
            = some .api)
    ∧ (∀ m m2 m3 : Option String,
        errClassOf (handleResponse (.ok (.object none m m2 m3))) = some .api)
    ∧ errClassOf (handleResponse (.ok .nonObject)) = some .api
    ∧ (∀ m m2 m3 : Option String,
        handleResponse (.ok (.object (some 0) m m2 m3))
          = .ok (.object (some 0) m m2 m3)) := by
  refine ⟨⟨rfl, rfl⟩, ?_, rfl, ?_, ?_, fun m m2 m3 => rfl, rfl,
    fun m m2 m3 => rfl⟩
  · intro status h
    rw [handleResponse, if_neg h]
    exact ⟨rfl, rfl⟩
  · rintro e m m2 m3 (rfl | rfl) <;> exact ⟨rfl, rfl⟩
  · intro e m m2 m3 h0 h401 h403
    rw [handleResponse, if_pos h0, if_neg (by simp [h401, h403])]
    exact ⟨rfl, rfl⟩

/-- Witness for C3: the spec scenario errno 41013 / "invalid token"
yields the generic API error carrying the code and message; HTTP 500
yields the connection error; errno 403 yields the auth error. -/
theorem c3_witness :
    handleResponse (.ok (.object (some 41013) (some ("invalid token")) none none))
        = .error (.apiErrnoError 41013 (some ("invalid token")))
    ∧ handleResponse (.clientResponseError 500) = .error .connectionHttp
    ∧ errClassOf (handleResponse (.ok (.object (some 403) none none none)))
        = some .auth := by
  refine ⟨?_, ?_, ?_⟩
  · exact (c3_response_error_classification.2.2.2.2.1 41013
      (some ("invalid token")) none none (by decide) (by decide) (by decide)).1
  · exact (c3_response_error_classification.2.1 500 (by decide)).1
  · exact (c3_response_error_classification.2.2.2.1 403 none none none
      (Or.inr rfl)).2

/-- C7: each invalid client-side argument — a production-report dimension
outside year/month/day, an empty serial list, a v0 real-time query with a
serial count other than one, an api_version outside v0/v1, or a setting
key whose normalized form is not in the canonical-key table — raises an
API error with an empty effect trace: no throttle, no call-tracker
record, no HTTP request. -/
theorem c7_validation_precedes_effects :
    (∀ (d : String) (outcome : HttpOutcome),
      d ≠ "year" → d ≠ "month" → d ≠ "day" →
      (runGetProductionReport d outcome).1 = []
      ∧ errClassOf (runGetProductionReport d outcome).2 = some .api)
    ∧ (∀ (v : String) (outcome : HttpOutcome),
        (runGetRealTimeData [] v outcome).1 = []
        ∧ errClassOf (runGetRealTimeData [] v outcome).2 = some .api)
    ∧ (∀ (sns : List String) (outcome : HttpOutcome),
        sns ≠ [] → sns.length ≠ 1 →
        (runGetRealTimeData sns ("v0") outcome).1 = []
        ∧ errClassOf (runGetRealTimeData sns ("v0") outcome).2 = some .api)
    ∧ (∀ (sns : List String) (v : String) (outcome : HttpOutcome),
        sns ≠ [] → v ≠ "v0" → v ≠ "v1" →
        (runGetRealTimeData sns v outcome).1 = []
        ∧ errClassOf (runGetRealTimeData sns v outcome).2 = some .api)
    ∧ (∀ (key : String) (outcome : HttpOutcome),
        (SETTING_KEYS.find? fun p => p.1 = normalizeKey key) = none →
        (runGetSetting key outcome).1 = []
        ∧ errClassOf (runGetSetting key outcome).2 = some .api) := by
  refine ⟨?_, ?_, ?_, ?_, ?_⟩
  · intro d outcome h1 h2 h3
    have hd : ¬ (d = "year" ∨ d = "month" ∨ d = "day") := by
      simp [h1, h2, h3]
    rw [runGetProductionReport, productionReportChecked, if_pos hd]
    exact ⟨rfl, rfl⟩
  · intro v outcome
    rw [runGetRealTimeData, realTimeChecked, if_pos rfl]
    exact ⟨rfl, rfl⟩
  · intro sns outcome h1 h2
    rw [runGetRealTimeData, realTimeChecked, if_neg h1,
      if_neg (by simp), if_pos ⟨rfl, h2⟩]
    exact ⟨rfl, rfl⟩
  · intro sns v outcome h1 h2 h3
    rw [runGetRealTimeData, realTimeChecked, if_neg h1,
      if_pos (by simp [h2, h3])]
    exact ⟨rfl, rfl⟩
  · intro key outcome hk
    rw [runGetSetting, canonicalSettingKey, hk]
    exact ⟨rfl, rfl⟩

/-- Witness for C7: dimension "week", v0 with two serials, api_version
"v2", and setting key "bogus" all fail with an empty effect trace. -/
theorem c7_witness :
    ((runGetProductionReport ("week") .otherTransportError).1 = []
      ∧ errClassOf (runGetProductionReport ("week") .otherTransportError).2
          = some .api)
    ∧ ((runGetRealTimeData [] ("v1") .otherTransportError).1 = []
      ∧ errClassOf (runGetRealTimeData [] ("v1") .otherTransportError).2
          = some .api)
    ∧ ((runGetRealTimeData ["A1", "B2"] ("v0") .otherTransportError).1 = []
      ∧ errClassOf (runGetRealTimeData ["A1", "B2"] ("v0") .otherTransportError).2
          = some .api)
    ∧ ((runGetRealTimeData ["A1"] ("v2") .otherTransportError).1 = []
      ∧ errClassOf (runGetRealTimeData ["A1"] ("v2") .otherTransportError).2
          = some .api)
    ∧ ((runGetSetting ("bogus") .otherTransportError).1 = []
      ∧ errClassOf (runGetSetting ("bogus") .otherTransportError).2
          = some .api) := by
  refine ⟨?_, ?_, ?_, ?_, ?_⟩
  · exact c7_validation_precedes_effects.1 ("week") .otherTransportError
      (by decide) (by decide) (by decide)
  · exact c7_validation_precedes_effects.2.1 ("v1") .otherTransportError
  · exact c7_validation_precedes_effects.2.2.1 ["A1", "B2"]
      .otherTransportError (by decide) (by decide)
  · exact c7_validation_precedes_effects.2.2.2.1 ["A1"] ("v2")
      .otherTransportError (by decide) (by decide) (by decide)
  · exact c7_validation_precedes_effects.2.2.2.2 ("bogus")
      .otherTransportError (by decide)

/-- On success, `update_group` writes exactly the provided fields onto
the copied group and keeps every other field. -/
lemma updateGroup_ok_fields (a : UpdateArgs) (g u : SchedulerGroup)
    (h : updateGroup a g = .ok u) :
    u.enable = a.enable.getD g.enable
    ∧ u.start_hour = a.start_hour.getD g.start_hour
    ∧ u.start_minute = a.start_minute.getD g.start_minute
    ∧ u.end_hour = a.end_hour.getD g.end_hour
    ∧ u.end_minute = a.end_minute.getD g.end_minute
    ∧ u.work_mode = a.work_mode.getD g.work_mode
    ∧ u.min_soc_on_grid = a.min_soc_on_grid.getD g.min_soc_on_grid
    ∧ u.fd_soc = a.fd_soc.getD g.fd_soc
    ∧ u.fd_pwr = a.fd_pwr.getD g.fd_pwr
    ∧ u.max_soc = a.max_soc.getD g.max_soc := by
  rcases a with ⟨en, sh, sm, eh, em, wm, msg, fds, fdp, msoc⟩
  cases sh <;> cases sm <;> cases eh <;> cases em <;>
    simp only [updateGroup, Option.isNone_none, Option.isNone_some,
      Bool.xor_false, Bool.xor_true, Bool.not_true, Bool.not_false,
      if_true, if_false, reduceCtorEq] at h <;>
  · cases en <;> cases wm <;> cases msg <;> cases fds <;> cases fdp <;>
      cases msoc <;> cases h <;>
      exact ⟨rfl, rfl, rfl, rfl, rfl, rfl, rfl, rfl, rfl, rfl⟩

/-- A successful `update_group` sets the dirty flag, keeps the last
fetched scheduler state, and replaces staging with the updated copy. -/
lemma coordUpdateGroup_ok (a : UpdateArgs) (s s' : CoordState)
    (h : coordUpdateGroup a s = .ok s') :
    s'.dirty = true
    ∧ s'.last_scheduler = s.last_scheduler
    ∧ updateGroup a s.staging = .ok s'.staging := by
  unfold coordUpdateGroup at h
  cases hu : updateGroup a s.staging with
  | error e => rw [hu] at h; cases h
  | ok u => rw [hu] at h; cases h; exact ⟨rfl, rfl, rfl⟩

/-- C8: a successful `update_group` call changes exactly the provided
fields of the staged group, keeps every unprovided field and the last
fetched scheduler state, and sets the dirty flag. -/
theorem c8_update_group_frame (a : UpdateArgs) (s s' : CoordState)
    (h : coordUpdateGroup a s = .ok s') :
    s'.dirty = true
    ∧ s'.last_scheduler = s.last_scheduler
    ∧ s'.staging.enable = a.enable.getD s.staging.enable
    ∧ s'.staging.start_hour = a.start_hour.getD s.staging.start_hour
    ∧ s'.staging.start_minute = a.start_minute.getD s.staging.start_minute
    ∧ s'.staging.end_hour = a.end_hour.getD s.staging.end_hour
    ∧ s'.staging.end_minute = a.end_minute.getD s.staging.end_minute
    ∧ s'.staging.work_mode = a.work_mode.getD s.staging.work_mode
    ∧ s'.staging.min_soc_on_grid
        = a.min_soc_on_grid.getD s.staging.min_soc_on_grid
    ∧ s'.staging.fd_soc = a.fd_soc.getD s.staging.fd_soc
    ∧ s'.staging.fd_pwr = a.fd_pwr.getD s.staging.fd_pwr
    ∧ s'.staging.max_soc = a.max_soc.getD s.staging.max_soc := by
  obtain ⟨hd, hl, hu⟩ := coordUpdateGroup_ok a s s' h
  exact ⟨hd, hl, updateGroup_ok_fields a s.staging s'.staging hu⟩

/-- The C8 example arguments of the spec: only `work_mode = "ForceCharge"`. -/
def forceChargeArgs : UpdateArgs :=
  { noArgs with work_mode := some ("ForceCharge") }

/-- The coordinator state after `update_group(work_mode="ForceCharge")`
on the fresh state. -/
def forceChargedState : CoordState :=
  { staging := { defaultGroup with work_mode := "ForceCharge" },
    dirty := true,
    last_scheduler := none }

/-- Witness for C8: `update_group(work_mode="ForceCharge")` on the fresh
coordinator state succeeds, sets the dirty flag and only changes
work_mode. -/
theorem c8_witness :
    coordUpdateGroup forceChargeArgs initState = .ok forceChargedState
    ∧ forceChargedState.dirty = true
    ∧ forceChargedState.staging.work_mode = "ForceCharge"
    ∧ forceChargedState.staging.start_hour = initState.staging.start_hour := by
  have h : coordUpdateGroup forceChargeArgs initState = .ok forceChargedState :=
    rfl
  obtain ⟨hd, _, _, hsh, _, _, _, hwm, _⟩ :=
    c8_update_group_frame forceChargeArgs initState forceChargedState h
  exact ⟨h, hd, hwm, hsh⟩

/-! ### Call tracker lemmas -/

/-- Total number of recorded calls held in the bucket map. -/
def totalCount (l : List (Int × Nat)) : Nat := (l.map fun p => p.2).sum

lemma bucketFor_mono {a b : Int} (h : a ≤ b) : bucketFor a ≤ bucketFor b := by
  unfold bucketFor
  rw [Int.fdiv_eq_ediv _ (by norm_num), Int.fdiv_eq_ediv _ (by norm_num)]
  exact Int.ediv_le_ediv (by norm_num) h

lemma bucketFor_add_hour (a : Int) : bucketFor (a + 3600) = bucketFor a + 1 := by
  unfold bucketFor
  rw [Int.fdiv_eq_ediv _ (by norm_num), Int.fdiv_eq_ediv _ (by norm_num)]
  have h := Int.add_mul_ediv_right a 1 (show (3600 : Int) ≠ 0 by norm_num)
  simpa using h

lemma totalCount_incBucket (l : List (Int × Nat)) (b : Int) :
    totalCount (incBucket l b) = totalCount l + 1 := by
  induction l with
  | nil => rfl
  | cons p rest ih =>
      rcases p with ⟨k, c⟩
      by_cases hk : k = b
      · simp only [incBucket, if_pos hk, totalCount, List.map_cons,
          List.sum_cons]
        omega
      · simp only [incBucket, if_neg hk, totalCount, List.map_cons,
          List.sum_cons] at *
        omega

lemma incBucket_key_mem {l : List (Int × Nat)} {b : Int} {p : Int × Nat}
    (hp : p ∈ incBucket l b) : p.1 = b ∨ ∃ q ∈ l, p.1 = q.1 := by
  induction l with
  | nil =>
      simp only [incBucket, List.mem_singleton] at hp
      exact Or.inl (by rw [hp])
  | cons q rest ih =>
      rcases q with ⟨k, c⟩
      by_cases hk : k = b
      · simp only [incBucket, if_pos hk, List.mem_cons] at hp
        rcases hp with rfl | hp
        · exact Or.inl hk
        · exact Or.inr ⟨p, List.mem_cons_of_mem _ hp, rfl⟩
      · simp only [incBucket, if_neg hk, List.mem_cons] at hp
        rcases hp with rfl | hp
        · exact Or.inr ⟨(k, c), List.mem_cons_self _ _, rfl⟩
        · rcases ih hp with h | ⟨q, hq, hpq⟩
          · exact Or.inl h
          · exact Or.inr ⟨q, List.mem_cons_of_mem _ hq, hpq⟩

lemma pruneBuckets_eq_self {l : List (Int × Nat)} {c : Int}
    (h : ∀ p ∈ l, ¬ p.1 < c) : pruneBuckets l c = l := by
  unfold pruneBuckets
  rw [List.filter_eq_self]
  intro p hp
  simpa using h p hp

lemma pruneBuckets_eq_nil {l : List (Int × Nat)} {c : Int}
    (h : ∀ p ∈ l, p.1 < c) : pruneBuckets l c = [] := by
  unfold pruneBuckets
  rw [List.filter_eq_nil_iff]
  intro p hp
  simpa using h p hp

lemma runRecords_key_mem {ts : List Int} {s : TrackerState} {p : Int × Nat}
    (hp : p ∈ (runRecords ts s).buckets) :
    (∃ q ∈ s.buckets, p.1 = q.1) ∨ ∃ t ∈ ts, p.1 = bucketFor t := by
  induction ts generalizing s with
  | nil => exact Or.inl ⟨p, hp, rfl⟩
  | cons t rest ih =>
      rcases ih (s := recordCall s t) hp with ⟨q, hq, hpq⟩ | ⟨t', ht', h⟩
      · have hq1 : q ∈ incBucket s.buckets (bucketFor t) :=
          (List.mem_filter.mp hq).1
        rcases incBucket_key_mem hq1 with h | ⟨r, hr, hqr⟩
        · exact Or.inr ⟨t, List.mem_cons_self _ _, hpq.trans h⟩
        · exact Or.inl ⟨r, hr, hpq.trans hqr⟩
      · exact Or.inr ⟨t', List.mem_cons_of_mem _ ht', h⟩

lemma totalCount_runRecords (ts : List Int) (s : TrackerState)
    (hspan : ∀ a ∈ ts, ∀ b ∈ ts, bucketFor (a - 86400) ≤ bucketFor b)
    (hkeys : ∀ p ∈ s.buckets, ∀ a ∈ ts, bucketFor (a - 86400) ≤ p.1) :
    totalCount (runRecords ts s).buckets = totalCount s.buckets + ts.length := by
  induction ts generalizing s with
  | nil => rfl
  | cons t rest ih =>
      have htmem : t ∈ t :: rest := List.mem_cons_self _ _
      have hcut : ∀ p ∈ incBucket s.buckets (bucketFor t),
          ¬ p.1 < bucketFor (t - 86400) := by
        intro p hp
        rcases incBucket_key_mem hp with h | ⟨q, hq, hpq⟩
        · rw [h]; exact not_lt.mpr (hspan t htmem t htmem)
        · rw [hpq]; exact not_lt.mpr (hkeys q hq t htmem)
      have hrec : (recordCall s t).buckets
          = incBucket s.buckets (bucketFor t) := by
        unfold recordCall
        exact pruneBuckets_eq_self hcut
      have hspan' : ∀ a ∈ rest, ∀ b ∈ rest,
          bucketFor (a - 86400) ≤ bucketFor b :=
        fun a ha b hb =>
          hspan a (List.mem_cons_of_mem _ ha) b (List.mem_cons_of_mem _ hb)
      have hkeys' : ∀ p ∈ (recordCall s t).buckets, ∀ a ∈ rest,
          bucketFor (a - 86400) ≤ p.1 := by
        intro p hp a ha
        rw [hrec] at hp
        rcases incBucket_key_mem hp with h | ⟨q, hq, hpq⟩
        · rw [h]; exact hspan a (List.mem_cons_of_mem _ ha) t htmem
        · rw [hpq]; exact hkeys q hq a (List.mem_cons_of_mem _ ha)
      have hstep := ih (recordCall s t) hspan' hkeys'
      have htc : totalCount (recordCall s t).buckets
          = totalCount s.buckets + 1 := by
        rw [hrec]; exact totalCount_incBucket _ _
      calc totalCount (runRecords (t :: rest) s).buckets
          = totalCount (runRecords rest (recordCall s t)).buckets := rfl
        _ = totalCount (recordCall s t).buckets + rest.length := hstep
        _ = totalCount s.buckets + (t :: rest).length := by
            rw [htc, List.length_cons]; omega

/-- C4 (amended): recording C calls whose timestamps span at most 24
hours yields `count_last_24h = C` at the time of the last call; and the
count is 0 at any time at least 25 hours (24 hours plus one full hour
bucket) after every recorded call. -/
theorem c4_call_tracker_window :
    (∀ (ts : List Int) (h1 : ts ≠ [])
        (hspan : ∀ a ∈ ts, ∀ b ∈ ts, a - b ≤ 86400),
        (countLast24h (runRecords ts emptyTracker) (ts.getLast h1)).1
          = ts.length)
    ∧ (∀ (ts : List Int) (now : Int), (∀ t ∈ ts, t + 90000 ≤ now) →
        (countLast24h (runRecords ts emptyTracker) now).1 = 0) := by
  constructor
  · intro ts h1 hspan
    have hL : ts.getLast h1 ∈ ts := List.getLast_mem h1
    have hbspan : ∀ a ∈ ts, ∀ b ∈ ts, bucketFor (a - 86400) ≤ bucketFor b :=
      fun a ha b hb => bucketFor_mono (by have := hspan a ha b hb; omega)
    have htot := totalCount_runRecords ts emptyTracker hbspan
      (by intro p hp; cases hp)
    have hk : ∀ p ∈ (runRecords ts emptyTracker).buckets,
        ¬ p.1 < bucketFor (ts.getLast h1 - 86400) := by
      intro p hp
      rcases runRecords_key_mem hp with ⟨q, hq, _⟩ | ⟨t, ht, hpt⟩
      · cases hq
      · rw [hpt]; exact not_lt.mpr (hbspan (ts.getLast h1) hL t ht)
    have hfilter : ((runRecords ts emptyTracker).buckets.filter
          fun p => bucketFor (ts.getLast h1 - 86400) ≤ p.1)
        = (runRecords ts emptyTracker).buckets := by
      rw [List.filter_eq_self]
      intro p hp
      simpa using not_lt.mp (hk p hp)
    show (((pruneBuckets (runRecords ts emptyTracker).buckets
        (bucketFor (ts.getLast h1 - 86400))).filter
          fun p => bucketFor (ts.getLast h1 - 86400) ≤ p.1).map
            fun p => p.2).sum = ts.length
    rw [pruneBuckets_eq_self hk, hfilter]
    simpa [totalCount, emptyTracker] using htot
  · intro ts now h
    have hk : ∀ p ∈ (runRecords ts emptyTracker).buckets,
        p.1 < bucketFor (now - 86400) := by
      intro p hp
      rcases runRecords_key_mem hp with ⟨q, hq, _⟩ | ⟨t, ht, hpt⟩
      · cases hq
      · rw [hpt]
        have h2 : bucketFor (t + 3600) ≤ bucketFor (now - 86400) :=
          bucketFor_mono (by have := h t ht; omega)
        rw [bucketFor_add_hour] at h2
        omega
    show (((pruneBuckets (runRecords ts emptyTracker).buckets
        (bucketFor (now - 86400))).filter
          fun p => bucketFor (now - 86400) ≤ p.1).map fun p => p.2).sum = 0
    rw [pruneBuckets_eq_nil hk]
    rfl

/-- Counterexample for C4 as stated: a single call recorded at time 0 is
still counted at time 86401, which is strictly more than 24 hours later,
because time 1 falls in the same hour bucket as time 0. -/
theorem c4_counterexample :
    (0 : Int) + 86400 < 86401
    ∧ (countLast24h (runRecords [(0 : Int)] emptyTracker) 86401).1 = 1 := by
  exact ⟨by decide, by decide⟩

/-- Witness for C4: two calls at times 0 and 100 count as 2 at time 100,
and a call at time 0 counts as 0 at time 90000 (25 hours later). -/
theorem c4_witness :
    (countLast24h (runRecords [(0 : Int), 100] emptyTracker) 100).1 = 2
    ∧ (countLast24h (runRecords [(0 : Int)] emptyTracker) 90000).1 = 0 := by
  constructor
  · exact c4_call_tracker_window.1 [0, 100] (by decide) (by decide)
  · exact c4_call_tracker_window.2 [0] 90000 (by decide)

/-! ### Range invariant of the staged group (C9) -/

/-- The range invariant of the spec on one group: hours in [0,23], minutes in
[0,59]. -/
def GroupInRange (g : SchedulerGroup) : Prop :=
  0 ≤ g.start_hour ∧ g.start_hour ≤ 23
  ∧ 0 ≤ g.end_hour ∧ g.end_hour ≤ 23
  ∧ 0 ≤ g.start_minute ∧ g.start_minute ≤ 59
  ∧ 0 ≤ g.end_minute ∧ g.end_minute ≤ 59

/-- Arguments of `update_group` whose provided hours and minutes are in
range. `update_group` itself never checks this. -/
def ArgsInRange (a : UpdateArgs) : Prop :=
  (∀ v ∈ a.start_hour, 0 ≤ v ∧ v ≤ 23)
  ∧ (∀ v ∈ a.end_hour, 0 ≤ v ∧ v ≤ 23)
  ∧ (∀ v ∈ a.start_minute, 0 ≤ v ∧ v ≤ 59)
  ∧ (∀ v ∈ a.end_minute, 0 ≤ v ∧ v ≤ 59)

/-- Coordinator transitions whose inputs respect the range invariant:
fetched server groups are in range and `update_group` arguments are in
range. -/
inductive GoodStep : CoordState → CoordState → Prop where
  | fetch (s : CoordState) (data : SchedulerInfo)
      (hg : ∀ g ∈ data.groups, GroupInRange g) :
      GoodStep s (applyFetchSuccess s data)
  | update (s s' : CoordState) (a : UpdateArgs) (ha : ArgsInRange a)
      (h : coordUpdateGroup a s = .ok s') : GoodStep s s'
  | submit (s : CoordState) (r : Except FoxError Unit) :
      GoodStep s (coordSubmit s r).1
  | restore (s : CoordState) : GoodStep s (restoreStagedGroup s)

/-- States reachable from `__init__` by range-respecting transitions. -/
def GoodReachable (s : CoordState) : Prop :=
  Relation.ReflTransGen GoodStep initState s

/-- Invariant carried through the induction: staging and every group of
the last fetched scheduler state are in range. -/
def StateInRange (s : CoordState) : Prop :=
  GroupInRange s.staging
  ∧ ∀ info, s.last_scheduler = some info → ∀ g ∈ info.groups, GroupInRange g

lemma defaultGroup_inRange : GroupInRange defaultGroup := by
  refine ⟨?_, ?_, ?_, ?_, ?_, ?_, ?_, ?_⟩ <;> decide

lemma getD_bounds {o : Option Int} {d lo hi : Int}
    (ho : ∀ v ∈ o, lo ≤ v ∧ v ≤ hi) (hd : lo ≤ d ∧ d ≤ hi) :
    lo ≤ o.getD d ∧ o.getD d ≤ hi := by
  cases o with
  | none => exact hd
  | some v => exact ho v rfl

lemma stateInRange_step {s s' : CoordState} (h : GoodStep s s')
    (hs : StateInRange s) : StateInRange s' := by
  cases h with
  | fetch data hg =>
      refine ⟨?_, ?_⟩
      · show GroupInRange (applyFetchSuccess s data).staging
        cases hd : s.dirty with
        | true =>
            simp only [applyFetchSuccess, hd, if_true]
            exact hs.1
        | false =>
            cases hgr : data.groups with
            | nil =>
                simp [applyFetchSuccess, hd, hgr]
                exact defaultGroup_inRange
            | cons g rest =>
                simp [applyFetchSuccess, hd, hgr]
                exact hg g (by rw [hgr]; exact List.mem_cons_self _ _)
      · intro info hinfo g hgm
        have hid : data = info := by
          simpa [applyFetchSuccess] using hinfo
        exact hg g (hid.symm ▸ hgm)
  | update s2 a ha hok =>
      obtain ⟨_, hl, hu⟩ := coordUpdateGroup_ok a s s' hok
      obtain ⟨_, f_sh, f_sm, f_eh, f_em, _, _, _, _, _⟩ :=
        updateGroup_ok_fields a s.staging s'.staging hu
      obtain ⟨g1, g2, g3, g4, g5, g6, g7, g8⟩ := hs.1
      have h1 := getD_bounds ha.1 ⟨g1, g2⟩
      have h2 := getD_bounds ha.2.1 ⟨g3, g4⟩
      have h3 := getD_bounds ha.2.2.1 ⟨g5, g6⟩
      have h4 := getD_bounds ha.2.2.2 ⟨g7, g8⟩
      refine ⟨?_, ?_⟩
      · unfold GroupInRange
        rw [f_sh, f_sm, f_eh, f_em]
        exact ⟨h1.1, h1.2, h2.1, h2.2, h3.1, h3.2, h4.1, h4.2⟩
      · intro info hinfo
        exact hs.2 info (hl ▸ hinfo)
  | submit r =>
      cases r with
      | error e => exact hs
      | ok u => exact ⟨hs.1, hs.2⟩
  | restore =>
      refine ⟨?_, ?_⟩
      · show GroupInRange (restoreStagedGroup s).staging
        cases hl : s.last_scheduler with
        | none =>
            simp [restoreStagedGroup, hl]
            exact defaultGroup_inRange
        | some info =>
            cases hgr : info.groups with
            | nil =>
                simp [restoreStagedGroup, hl, hgr]
                exact defaultGroup_inRange
            | cons g rest =>
                simp [restoreStagedGroup, hl, hgr]
                exact hs.2 info hl g (by rw [hgr]; exact List.mem_cons_self _ _)
      · intro info hinfo
        exact hs.2 info hinfo

/-- C9 (amended): the staged group satisfies the hour/minute range
invariant in every state reachable when every fetched server group and
every `update_group` argument respects the bounds; `update_group` itself
does not enforce them (see the counterexample). -/
theorem c9_range_invariant_guarded (s : CoordState) (h : GoodReachable s) :
    GroupInRange s.staging := by
  suffices hs : StateInRange s from hs.1
  unfold GoodReachable at h
  induction h with
  | refl =>
      refine ⟨defaultGroup_inRange, ?_⟩
      intro info hinfo
      cases hinfo
  | tail hst step ih => exact stateInRange_step step ih

/-- Witness for the amended C9 at the initial state. -/
theorem c9_witness : GroupInRange initState.staging :=
  c9_range_invariant_guarded initState Relation.ReflTransGen.refl

/-- Arguments `update_group(start_hour=99, start_minute=0)`: in-range checks do not
exist in the code. -/
def c9Args : UpdateArgs :=
  { noArgs with
    start_hour := some 99,
    start_minute := some 0 }

/-- The coordinator state produced by that call from the fresh state. -/
def c9BadState : CoordState :=
  { staging := { defaultGroup with start_hour := 99 },
    dirty := true,
    last_scheduler := none }

/-- Counterexample for C9 as stated: one `update_group` call from the
initial state reaches a staged group with `start_hour = 99 ∉ [0, 23]`. -/
theorem c9_counterexample :
    Reachable c9BadState
    ∧ c9BadState.staging.start_hour = 99
    ∧ ¬ c9BadState.staging.start_hour ≤ 23 := by
  refine ⟨?_, rfl, by decide⟩
  exact Relation.ReflTransGen.single
    (Step.update initState c9BadState c9Args rfl)

end FoxESS
